import Mathlib

/-!
Shallow embedding of the sentiment-analysis service core:
the text preprocessor (`src/utils/preprocessing.py`), the result
normalizer (`src/models/model.py`), the history store and statistics
aggregator (`src/data/data_loader.py`), and the two analysis routes of
`src/main.py`.

Python strings are modelled as `List Char` (`PyStr`), reals as `ℚ`
(wall-clock float artifacts are out of scope; `round` is modelled on the
exact rational value), and Python dicts as structures / sum types that
mirror exactly the keys the code reads and writes.  Character-class
predicates (`str.isupper`, `\s`, `\w`, ...) are modelled on their ASCII
behaviour, which covers every string the claims quantify over or
evaluate.
-/

namespace SentApp

/-- Python `str`, modelled as a list of characters. -/
abbrev PyStr := List Char

/-- Python whitespace (the ASCII part of `\s` / `str.strip`). -/
def pyIsSpace (c : Char) : Bool :=
  c == ' ' || c == '\t' || c == '\n' || c == '\r' || c == '\x0b' || c == '\x0c'

/-- ASCII lower-casing of one character, as `str.lower` does per character. -/
def lowerChar (c : Char) : Char :=
  if 'A' ≤ c ∧ c ≤ 'Z' then Char.ofNat (c.toNat + 32) else c

/-- ASCII upper-casing of one character, as `str.upper` does per character. -/
def upperChar (c : Char) : Char :=
  if 'a' ≤ c ∧ c ≤ 'z' then Char.ofNat (c.toNat - 32) else c

/-- Python `str.strip()`: remove leading and trailing whitespace. -/
def pyStrip (s : PyStr) : PyStr :=
  ((s.dropWhile pyIsSpace).reverse.dropWhile pyIsSpace).reverse

/-- Helper for `pySplit`: accumulates the current word (reversed). -/
def pySplitAux : PyStr → PyStr → List PyStr
  | [], acc => if acc = [] then [] else [acc.reverse]
  | c :: cs, acc =>
    if pyIsSpace c then
      if acc = [] then pySplitAux cs [] else acc.reverse :: pySplitAux cs []
    else pySplitAux cs (c :: acc)

/-- Python `str.split()` with no argument: split on whitespace runs,
dropping empty fields. -/
def pySplit (s : PyStr) : List PyStr := pySplitAux s []

/-- Value of an ASCII decimal digit. -/
def digitVal (c : Char) : Option ℕ :=
  if '0' ≤ c ∧ c ≤ '9' then some (c.toNat - '0'.toNat) else none

/-- Helper for `digitsToNat`. -/
def digitsToNatAux : PyStr → ℕ → Option ℕ
  | [], acc => some acc
  | c :: cs, acc =>
    match digitVal c with
    | none => none
    | some d => digitsToNatAux cs (acc * 10 + d)

/-- A non-empty all-digit string read as a natural number. -/
def digitsToNat (s : PyStr) : Option ℕ :=
  if s = [] then none else digitsToNatAux s 0

/-- Python `int(s)` on a whitespace-free token: optional sign followed by
ASCII digits; any other shape raises `ValueError`, modelled as `none`. -/
def pyInt (s : PyStr) : Option ℤ :=
  match s with
  | '+' :: rest => (digitsToNat rest).map (fun n => (n : ℤ))
  | '-' :: rest => (digitsToNat rest).map (fun n => -(n : ℤ))
  | _ => (digitsToNat s).map (fun n => (n : ℤ))

/-- Python `round(x, ndigits)` (round-half-to-even) applied to the exact
rational value of `x`; binary floating-point representation effects are
out of scope, and no claim in this development evaluates `round` at a
half-way tie. -/
def pyRoundHalfEven (m : ℚ) : ℤ :=
  if m - ⌊m⌋ < 1 / 2 then ⌊m⌋
  else if 1 / 2 < m - ⌊m⌋ then ⌊m⌋ + 1
  else if ⌊m⌋ % 2 = 0 then ⌊m⌋ else ⌊m⌋ + 1

/-- Python `round(q, ndigits)` for `ndigits ≥ 0`. -/
def pyRound (ndigits : ℕ) (q : ℚ) : ℚ :=
  (pyRoundHalfEven (q * 10 ^ ndigits) : ℚ) / 10 ^ ndigits

/-! ### Text Normalizer (`TextPreprocessor`, `src/utils/preprocessing.py`) -/

/-- The `emoji_dict` table of `TextPreprocessor.__init__`, in insertion
order (Python dicts preserve it). -/
def emoji_dict : List (PyStr × PyStr) :=
  [("😊".toList, "feliz".toList),
   ("😃".toList, "feliz".toList),
   ("😄".toList, "muy feliz".toList),
   ("😁".toList, "muy feliz".toList),
   ("😍".toList, "amor".toList),
   ("❤️".toList, "amor".toList),
   ("😔".toList, "triste".toList),
   ("😢".toList, "triste".toList),
   ("😭".toList, "muy triste".toList),
   ("😡".toList, "enojado".toList),
   ("😠".toList, "enojado".toList),
   ("😤".toList, "frustrado".toList),
   ("👍".toList, "bien".toList),
   ("👎".toList, "mal".toList),
   ("⭐".toList, "estrella".toList),
   ("✨".toList, "excelente".toList),
   ("💔".toList, "decepcion".toList),
   ("🤮".toList, "asco".toList),
   ("😐".toList, "neutral".toList),
   ("😑".toList, "neutral".toList),
   ("🙄".toList, "molesto".toList)]

/-- Python `s.replace(pat, repl)` for a non-empty `pat`: left-to-right,
non-overlapping replacement (every pattern used by the code is non-empty). -/
def replaceAll (pat repl : PyStr) : PyStr → PyStr
  | [] => []
  | c :: cs =>
    if pat.isPrefixOf (c :: cs) then repl ++ replaceAll pat repl (cs.drop (pat.length - 1))
    else c :: replaceAll pat repl cs
termination_by s => s.length
decreasing_by
  all_goals (try simp only [List.length_drop, List.length_cons])
  all_goals omega

/-- `TextPreprocessor._convert_emojis`: each glyph becomes a space-padded
sentiment word. -/
def convert_emojis (text : PyStr) : PyStr :=
  emoji_dict.foldl (fun t p => replaceAll p.1 (' ' :: (p.2 ++ [' '])) t) text

/-- The character class of the URL regex
`http[s]?://(?:[a-zA-Z]|[0-9]|[$-_@.&+]|[!*\\(\\),]|(?:%[0-9a-fA-F][0-9a-fA-F]))+`.
`[$-_@.&+]` is the byte range `\x24`–`\x5f` (which already contains `%`,
digits, upper-case letters, `@`, `.`, `&`, `+`), so the `%hh` alternative
is subsumed and the pattern body is one repeated character class. -/
def urlChar (c : Char) : Bool :=
  ('a' ≤ c && c ≤ 'z') || ('A' ≤ c && c ≤ 'Z') || ('0' ≤ c && c ≤ '9') ||
  ('\x24' ≤ c && c ≤ '\x5f') || c == '!' || c == '*' || c == '\\' ||
  c == '(' || c == ')' || c == ','

/-- Tries the URL regex at the head of `s`; on success returns how many
characters the (greedy) match consumes: the scheme plus a non-empty run of
`urlChar`s. -/
def matchURLLen (s : PyStr) : Option ℕ :=
  match (if List.isPrefixOf ("https://".toList) s then some 8
         else if List.isPrefixOf ("http://".toList) s then some 7
         else none : Option ℕ) with
  | none => none
  | some k =>
    if (s.drop k).takeWhile urlChar = [] then none
    else some (k + ((s.drop k).takeWhile urlChar).length)

theorem matchURLLen_pos {s : PyStr} {n : ℕ} (h : matchURLLen s = some n) : 1 ≤ n := by
  unfold matchURLLen at h
  split at h
  · exact absurd h (by simp)
  · split at h
    · exact absurd h (by simp)
    · rename_i k heq hrun
      have hk : k = 8 ∨ k = 7 := by
        split at heq
        · exact Or.inl (by injection heq with h2; omega)
        · split at heq
          · exact Or.inr (by injection heq with h2; omega)
          · exact absurd heq (by simp)
      injection h with h2
      omega

/-- `re.sub(r'http[s]?://(...)+', '', text)`: scan left to right, deleting
every match. -/
def stripURLs : PyStr → PyStr
  | [] => []
  | c :: cs =>
    match h : matchURLLen (c :: cs) with
    | some n => stripURLs ((c :: cs).drop n)
    | none => c :: stripURLs cs
termination_by s => s.length
decreasing_by
  · have := matchURLLen_pos h
    simp only [List.length_drop, List.length_cons]
    omega
  · simp

/-- The ASCII part of the regex `\w` class. -/
def wordChar (c : Char) : Bool := c.isAlphanum || c == '_'

/-- `re.sub(r'@\w+', '', text)`: delete mention tokens. -/
def stripMentions : PyStr → PyStr
  | [] => []
  | c :: cs =>
    if c = '@' then
      let run := cs.takeWhile wordChar
      if run = [] then c :: stripMentions cs else stripMentions (cs.drop run.length)
    else c :: stripMentions cs
termination_by s => s.length
decreasing_by
  all_goals (try simp only [List.length_drop, List.length_cons])
  all_goals omega

/-- `re.sub(r'#(\w+)', r'\1', text)`: keep the word, drop the marker. -/
def unwrapHashtags : PyStr → PyStr
  | [] => []
  | c :: cs =>
    if c = '#' then
      let run := cs.takeWhile wordChar
      if run = [] then c :: unwrapHashtags cs else run ++ unwrapHashtags (cs.drop run.length)
    else c :: unwrapHashtags cs
termination_by s => s.length
decreasing_by
  all_goals (try simp only [List.length_drop, List.length_cons])
  all_goals omega

/-- Position of the first `'>'` in `s`, unless a newline comes first
(`.` in `<.*?>` does not match a newline). -/
def findGt : PyStr → Option ℕ
  | [] => none
  | c :: cs =>
    if c = '>' then some 0
    else if c = '\n' then none
    else (findGt cs).map (fun i => i + 1)

/-- `re.sub(r'<.*?>', '', text)`: delete the shortest `<`…`>` spans. -/
def stripTags : PyStr → PyStr
  | [] => []
  | c :: cs =>
    if c = '<' then
      match findGt cs with
      | some i => stripTags (cs.drop (i + 1))
      | none => c :: stripTags cs
    else c :: stripTags cs
termination_by s => s.length
decreasing_by
  all_goals (try simp only [List.length_drop, List.length_cons])
  all_goals omega

/-- `re.sub(r'\s+', ' ', text)`: collapse whitespace runs to one space. -/
def collapseWS : PyStr → PyStr
  | [] => []
  | [c] => if pyIsSpace c then [' '] else [c]
  | c :: d :: cs =>
    if pyIsSpace c && pyIsSpace d then collapseWS (d :: cs)
    else (if pyIsSpace c then ' ' else c) :: collapseWS (d :: cs)

/-- `TextPreprocessor.clean_text`: emoji words, strip URLs / mentions /
tags, unwrap hashtags, collapse whitespace, trim.  Falsy input yields the
empty string. -/
def clean_text (text : PyStr) : PyStr :=
  if text = [] then []
  else pyStrip (collapseWS (stripTags (unwrapHashtags (stripMentions (stripURLs (convert_emojis text))))))

/-- Python `sub in s` for strings: contiguous-substring test. -/
def containsSub (pat s : PyStr) : Bool := decide (List.IsInfix pat s)

/-- Python `str.isupper` on ASCII text: at least one cased (letter)
character and no lower-case letter. -/
def pyIsUpper (s : PyStr) : Bool :=
  s.any Char.isAlpha && s.all (fun c => !c.isLower)

/-- `re.search(r'(.)\1{2,}', text)`: three or more identical consecutive
characters (`.` does not match a newline). -/
def hasRepeated : PyStr → Bool
  | a :: b :: c :: rest => (a == b && b == c && !(a == '\n')) || hasRepeated (b :: c :: rest)
  | _ => false
termination_by s => s.length
decreasing_by
  · simp

/-- The dictionary returned by `TextPreprocessor.extract_features`. -/
structure Features where
  length : ℕ
  word_count : ℕ
  exclamation_count : ℕ
  question_count : ℕ
  uppercase_ratio : ℚ
  has_emoji : Bool
  repeated_chars : Bool
  all_caps : Bool
deriving DecidableEq

/-- `TextPreprocessor.extract_features`. -/
def extract_features (text : PyStr) : Features :=
  { length := text.length
    word_count := (pySplit text).length
    exclamation_count := text.count '!'
    question_count := text.count '?'
    uppercase_ratio := ((text.filter Char.isUpper).length : ℚ) / ((max text.length 1 : ℕ) : ℚ)
    has_emoji := emoji_dict.any (fun p => containsSub p.1 text)
    repeated_chars := hasRepeated text
    all_caps := pyIsUpper text && decide (3 < text.length) }

/-! ### Result Normalizer and analyzer (`SentimentAnalyzer`, `src/models/model.py`) -/

/-- The canonical three-way sentiment. -/
inductive Sentiment where
  | POSITIVE
  | NEGATIVE
  | NEUTRAL
deriving DecidableEq

/-- The dictionary built by `SentimentAnalyzer._process_result`. -/
structure ProcessedResult where
  sentiment : Sentiment
  confidence : ℚ
  stars : ℤ
  emoji : String
  sentiment_score : ℚ
  raw_label : PyStr
deriving DecidableEq

/-- `int(label.split()[0])`: the leading whitespace-separated token of the
label parsed as an integer; `none` models the `IndexError`/`ValueError`
raised when there is no such token or it is not an integer literal. -/
def leading_int (label : PyStr) : Option ℤ :=
  match (pySplit label).head? with
  | none => none
  | some tok => pyInt tok

/-- `SentimentAnalyzer._process_result`.  `none` models the exception
raised while parsing the leading star count (caught by `analyze`'s
`except` and turned into an error record). -/
def process_result (label : PyStr) (score : ℚ) : Option ProcessedResult :=
  if containsSub ("star".toList) (label.map lowerChar) then
    match leading_int label with
    | none => none
    | some stars =>
      if stars ≤ 2 then
        some { sentiment := .NEGATIVE, confidence := pyRound 4 score, stars := stars,
               emoji := "😔", sentiment_score := pyRound 4 (-score), raw_label := label }
      else if stars = 3 then
        some { sentiment := .NEUTRAL, confidence := pyRound 4 score, stars := stars,
               emoji := "😐", sentiment_score := pyRound 4 0, raw_label := label }
      else
        some { sentiment := .POSITIVE, confidence := pyRound 4 score, stars := stars,
               emoji := "😊", sentiment_score := pyRound 4 score, raw_label := label }
  else
    if label.map upperChar = "POSITIVE".toList ∨ label = "LABEL_1".toList then
      some { sentiment := .POSITIVE, confidence := pyRound 4 score,
             stars := if (0.9 : ℚ) < score then 4 else 5,
             emoji := "😊", sentiment_score := pyRound 4 score, raw_label := label }
    else
      some { sentiment := .NEGATIVE, confidence := pyRound 4 score,
             stars := if (0.9 : ℚ) < score then 2 else 1,
             emoji := "😔", sentiment_score := pyRound 4 (-score), raw_label := label }

/-- The classifier boundary `self.model(text)[0]`: an opaque function
returning a raw `(label, score)` or failing with a classifier error. -/
def Classifier := PyStr → Except String (PyStr × ℚ)

/-- A dictionary returned by `SentimentAnalyzer.analyze`: either the
processed result together with its metadata keys, or the error dictionary
built in the `except` branch (classifier failure).  `processing_time` is
the measured wall-clock duration, which is not modelled; it is threaded
through as an opaque parameter `dt`. -/
inductive AnalyzeResult where
  | ok (core : ProcessedResult) (text_original text_analyzed : PyStr)
      (text_truncated : Bool) (text_length : ℕ) (processing_time : ℚ)
  | err (error : String) (text_original : PyStr) (processing_time : ℚ)
deriving DecidableEq

/-- The message of the `ValueError` raised by `analyze` on empty input. -/
def emptyTextMsg : String := "El texto no puede estar vacío"

/-- `SentimentAnalyzer.analyze`.  `Except.error` models the `ValueError`
raised (and not caught) on empty/whitespace-only text; a classifier
failure is caught and becomes an `.err` result. -/
def analyze (classify : Classifier) (dt : ℚ) (text : PyStr) : Except String AnalyzeResult :=
  if text = [] ∨ (pyStrip text).length = 0 then Except.error emptyTextMsg
  else
    match classify (if 500 < text.length then text.take 500 else text) with
    | Except.error e => Except.ok (.err e text dt)
    | Except.ok (label, score) =>
      match process_result label score with
      | none => Except.ok (.err "invalid literal for int() with base 10" text dt)
      | some core =>
        Except.ok (.ok core text (if 500 < text.length then text.take 500 else text)
          (decide (500 < text.length)) text.length dt)

/-- One entry of the list returned by `SentimentAnalyzer.analyze_batch`:
the per-item `analyze` dictionary with its `index`, or — when `analyze`
raised — the fallback error dictionary whose `text_original` is truncated
to 100 characters plus `'...'`. -/
inductive BatchItem where
  | res (index : ℕ) (r : AnalyzeResult)
  | raised (index : ℕ) (error : String) (text_original : PyStr)
deriving DecidableEq

/-- `SentimentAnalyzer.analyze_batch`. -/
def analyze_batch (classify : Classifier) (dt : ℚ) (texts : List PyStr) : List BatchItem :=
  texts.enum.map (fun p =>
    match analyze classify dt p.2 with
    | Except.ok r => .res p.1 r
    | Except.error e =>
      .raised p.1 e (if 100 < p.2.length then p.2.take 100 ++ "...".toList else p.2))

/-! ### History Store and Statistics Aggregator (`DataManager`, `src/data/data_loader.py`) -/

/-- A valid stored dictionary: it has the `sentiment` key.  Only the keys
the store and the aggregators read are modelled; `stars` and
`processing_time` are optional because `get_statistics` guards their
access with `if 'stars' in r` / `if 'processing_time' in r`. -/
structure ValidRecord where
  sentiment : Sentiment
  confidence : ℚ
  stars : Option ℤ
  processing_time : Option ℚ
  timestamp : Option PyStr
deriving DecidableEq

/-- A stored error dictionary: no `sentiment` key. -/
structure ErrorRecord where
  error : String
  processing_time : Option ℚ
  timestamp : Option PyStr
deriving DecidableEq

/-- A stored history entry: the two dictionary shapes are discriminated by
the presence of the `sentiment` key, exactly as the aggregators do. -/
inductive Record where
  | valid (v : ValidRecord)
  | err (e : ErrorRecord)
deriving DecidableEq

/-- `result['timestamp'] = datetime.now().isoformat()`: `save_analysis`
stamps the record before appending; the clock value is the opaque
parameter `now`. -/
def setTimestamp (r : Record) (now : PyStr) : Record :=
  match r with
  | .valid v => .valid { v with timestamp := some now }
  | .err e => .err { e with timestamp := some now }

/-- `DataManager.save_analysis`: stamp, append, keep only the last 1000
entries.  (Persistence is a side effect whose failure does not affect the
in-memory list; it is out of scope here.) -/
def save_analysis (history : List Record) (result : Record) (now : PyStr) : List Record :=
  let h2 := history ++ [setTimestamp result now]
  if 1000 < h2.length then h2.drop (h2.length - 1000) else h2

/-- `DataManager.get_recent_analyses`: `history[-limit:] if history else []`.
For `limit = 0` the Python slice `[-0:]` is `[0:]`, the whole list. -/
def get_recent_analyses (history : List Record) (limit : ℕ) : List Record :=
  if history = [] then []
  else if limit = 0 then history
  else history.drop (history.length - limit)

/-- `'sentiment' in h`: the valid/error discriminator used by both
aggregators. -/
def validOf : Record → Option ValidRecord
  | .valid v => some v
  | .err _ => none

/-- The full statistics dictionary built by `DataManager.get_statistics`
when at least one valid record exists. -/
structure FullStats where
  total_analyzed : ℕ
  valid_results : ℕ
  errors : ℕ
  positive : ℕ
  negative : ℕ
  neutral : ℕ
  pct_positive : ℚ
  pct_negative : ℚ
  pct_neutral : ℚ
  average_confidence : ℚ
  average_stars : ℚ
  average_processing_time : ℚ
  last_analysis : Option PyStr
deriving DecidableEq

/-- The three dictionary shapes `DataManager.get_statistics` can return:
empty history, history with no valid record, or the full statistics. -/
inductive StatsSnapshot where
  | empty
  | noValid (total_analyzed : ℕ)
  | full (s : FullStats)
deriving DecidableEq

/-- `DataManager.get_statistics` (the pure reduction; writing the
statistics file is a side effect out of scope). -/
def get_statistics (history : List Record) : StatsSnapshot :=
  if history = [] then .empty
  else
    let valid_results := history.filterMap validOf
    if valid_results = [] then .noValid history.length
    else
      let sentiments : List Sentiment := valid_results.map (fun r => r.sentiment)
      let confidences : List ℚ := valid_results.map (fun r => r.confidence)
      let stars : List ℤ := valid_results.filterMap (fun r => r.stars)
      let processing_times : List ℚ := valid_results.filterMap (fun r => r.processing_time)
      .full
        { total_analyzed := history.length
          valid_results := valid_results.length
          errors := history.length - valid_results.length
          positive := sentiments.count .POSITIVE
          negative := sentiments.count .NEGATIVE
          neutral := sentiments.count .NEUTRAL
          pct_positive := pyRound 2 ((sentiments.count .POSITIVE : ℚ) / (sentiments.length : ℚ) * 100)
          pct_negative := pyRound 2 ((sentiments.count .NEGATIVE : ℚ) / (sentiments.length : ℚ) * 100)
          pct_neutral := pyRound 2 ((sentiments.count .NEUTRAL : ℚ) / (sentiments.length : ℚ) * 100)
          average_confidence :=
            if confidences = [] then 0
            else pyRound 4 (confidences.sum / (confidences.length : ℚ))
          average_stars :=
            if stars = [] then 0
            else pyRound 2 ((stars.map (fun z => (z : ℚ))).sum / (stars.length : ℚ))
          average_processing_time :=
            if processing_times = [] then 0
            else pyRound 3 (processing_times.sum / (processing_times.length : ℚ))
          last_analysis := valid_results.getLast?.bind (fun r => r.timestamp) }

/-! ### HTTP surface (`src/main.py`) -/

/-- The statistics dictionary built by `calculate_batch_stats` when at
least one valid result exists (otherwise the function returns `{}`,
modelled as `none`). -/
structure BatchStats where
  total : ℕ
  valid : ℕ
  errors : ℕ
  positive : ℕ
  negative : ℕ
  neutral : ℕ
  average_confidence : ℚ
  pct_positive : ℚ
  pct_negative : ℚ
  pct_neutral : ℚ
deriving DecidableEq

/-- `calculate_batch_stats` of `src/main.py`.  It reads only the
`sentiment`/`confidence` keys of its input dictionaries, so its input is
modelled as the same `Record` shape the history holds. -/
def calculate_batch_stats (results : List Record) : Option BatchStats :=
  let valid_results : List ValidRecord := results.filterMap validOf
  if valid_results = [] then none
  else
    let sentiments : List Sentiment := valid_results.map (fun r => r.sentiment)
    let confidences : List ℚ := valid_results.map (fun r => r.confidence)
    some
      { total := results.length
        valid := valid_results.length
        errors := results.length - valid_results.length
        positive := sentiments.count .POSITIVE
        negative := sentiments.count .NEGATIVE
        neutral := sentiments.count .NEUTRAL
        average_confidence :=
          if confidences = [] then 0
          else pyRound 4 (confidences.sum / (confidences.length : ℚ))
        pct_positive :=
          if sentiments = [] then 0
          else pyRound 2 ((sentiments.count .POSITIVE : ℚ) / (sentiments.length : ℚ) * 100)
        pct_negative :=
          if sentiments = [] then 0
          else pyRound 2 ((sentiments.count .NEGATIVE : ℚ) / (sentiments.length : ℚ) * 100)
        pct_neutral :=
          if sentiments = [] then 0
          else pyRound 2 ((sentiments.count .NEUTRAL : ℚ) / (sentiments.length : ℚ) * 100) }

/-- The history entry derived from an `analyze` dictionary when the
`/api/analyze` route saves it (the fields the store and aggregators
read). -/
def toRecord : AnalyzeResult → Record
  | .ok core _ _ _ _ pt =>
    .valid { sentiment := core.sentiment, confidence := core.confidence,
             stars := some core.stars, processing_time := some pt, timestamp := none }
  | .err e _ pt => .err { error := e, processing_time := some pt, timestamp := none }

/-- The responses of the `/api/analyze` route: the 400 guard for over-long
text, the 500 handler for an uncaught exception (`ANALYSIS_ERROR`), or the
JSON success payload. -/
inductive SingleResp where
  | tooLong
  | analysisError (msg : String)
  | success (result : AnalyzeResult)
deriving DecidableEq

/-- The `/api/analyze` route (`analyze_text` in `src/main.py`), for a
request that did supply a `text` field: length guard, optional
preprocessing, analysis, history append.  Returns the response and the
new history. -/
def analyze_text (classify : Classifier) (dt : ℚ) (history : List Record) (now : PyStr)
    (text : PyStr) (preprocess : Bool) : SingleResp × List Record :=
  if 5000 < text.length then (.tooLong, history)
  else
    match analyze classify dt (if preprocess then clean_text text else text) with
    | Except.error e => (.analysisError e, history)
    | Except.ok result => (.success result, save_analysis history (toRecord result) now)

/-- The record shape of a batch result dictionary as seen by
`calculate_batch_stats` (key presence only). -/
def batchItemRecord : BatchItem → Record
  | .res _ r => toRecord r
  | .raised _ e _ => .err { error := e, processing_time := none, timestamp := none }

/-- The responses of the `/api/analyze-batch` route: the 400 guard for
more than 50 texts, or the JSON success payload. -/
inductive BatchResp where
  | tooMany
  | success (results : List BatchItem) (statistics : Option BatchStats)
deriving DecidableEq

/-- The `/api/analyze-batch` route (`analyze_batch` in `src/main.py`,
named `analyze_batch_route` here because the model method of the same
name is already taken), for a request that did supply a `texts` field:
size guard, optional preprocessing, batch analysis, batch statistics.
The route never touches the history, which is returned unchanged. -/
def analyze_batch_route (classify : Classifier) (dt : ℚ) (history : List Record)
    (texts : List PyStr) (preprocess : Bool) : BatchResp × List Record :=
  if 50 < texts.length then (.tooMany, history)
  else
    (.success (analyze_batch classify dt (if preprocess then texts.map clean_text else texts))
       (calculate_batch_stats
         ((analyze_batch classify dt
             (if preprocess then texts.map clean_text else texts)).map batchItemRecord)),
     history)

/-! ### Sample values used by concrete instantiations -/

/-- A classifier that always fails (the model raised). -/
def failClassifier : Classifier := fun _ => Except.error "model failure"

/-- A classifier that always answers `("POSITIVE", 1/2)`. -/
def posClassifier : Classifier := fun _ => Except.ok ("POSITIVE".toList, 1/2)

/-- The processed result `posClassifier`'s answer normalizes to. -/
def corePos : ProcessedResult :=
  { sentiment := .POSITIVE, confidence := pyRound 4 (1 / 2),
    stars := if (0.9 : ℚ) < 1 / 2 then 4 else 5,
    emoji := "😊", sentiment_score := pyRound 4 (1 / 2), raw_label := "POSITIVE".toList }

/-- A sample valid stored record. -/
def sampleValid : Record :=
  .valid { sentiment := .POSITIVE, confidence := 1/2, stars := some 4,
           processing_time := some 0, timestamp := some [] }

/-- A sample error stored record. -/
def sampleErr : Record :=
  .err { error := "model failure", processing_time := some 0, timestamp := some [] }

/-- The concrete text of the feature-extraction test. -/
def capsText : PyStr := "ALL CAPS!!!".toList

/-- The full-statistics payload of a history snapshot, when there is one. -/
def fullOf : StatsSnapshot → Option FullStats
  | .full s => some s
  | _ => none

/-- The restriction of a history snapshot to the three sentiment counts
and the confidence mean — the part the spec says the two aggregators
share. -/
def statsView : StatsSnapshot → Option (ℕ × ℕ × ℕ × ℚ)
  | .full s => some (s.positive, s.negative, s.neutral, s.average_confidence)
  | _ => none

/-- The same restriction of a batch-statistics payload. -/
def batchView : Option BatchStats → Option (ℕ × ℕ × ℕ × ℚ)
  | some b => some (b.positive, b.negative, b.neutral, b.average_confidence)
  | none => none

/-- Projection: the `text_original` key of an `analyze` dictionary. -/
def textOriginalOf : AnalyzeResult → PyStr
  | .ok _ t0 _ _ _ _ => t0
  | .err _ t0 _ => t0

/-- The per-item results carried by a batch response. -/
def batchRespItems : BatchResp → List BatchItem
  | .tooMany => []
  | .success rs _ => rs

/-- Whether a batch item is a successfully normalized (valid) result. -/
def isValidItem : BatchItem → Bool
  | .res _ (.ok _ _ _ _ _ _) => true
  | _ => false

/-- Whether a pattern starts with a non-whitespace character (true of
every replacement pattern `clean_text` uses). -/
def headNonSpace : PyStr → Bool
  | [] => false
  | c :: _ => !pyIsSpace c

/-! ## Theorems -/

theorem save_analysis_eq (history : List Record) (r : Record) (now : PyStr) :
    save_analysis history r now
      = (history ++ [setTimestamp r now]).drop (history.length + 1 - 1000) := by
  unfold save_analysis
  by_cases hlen : 1000 < (history ++ [setTimestamp r now]).length
  · rw [if_pos hlen]
    simp only [List.length_append, List.length_singleton]
  · rw [if_neg hlen]
    simp only [List.length_append, List.length_singleton] at hlen
    have : history.length + 1 - 1000 = 0 := by omega
    rw [this, List.drop_zero]

theorem foldl_save_small (rs : List (Record × PyStr)) :
    ∀ h : List Record, h.length + rs.length ≤ 1000 →
      List.foldl (fun acc p => save_analysis acc p.1 p.2) h rs
        = h ++ rs.map (fun p => setTimestamp p.1 p.2) := by
  induction rs with
  | nil => intro h _; simp
  | cons p ps ih =>
    intro h hlen
    simp only [List.foldl_cons, List.map_cons]
    have hsave : save_analysis h p.1 p.2 = h ++ [setTimestamp p.1 p.2] := by
      rw [save_analysis_eq]
      have h0 : h.length + 1 - 1000 = 0 := by
        simp only [List.length_cons] at hlen; omega
      rw [h0, List.drop_zero]
    rw [hsave, ih (h ++ [setTimestamp p.1 p.2])
      (by simp only [List.length_append, List.length_cons, List.length_nil] at hlen ⊢; omega)]
    simp

/-- Claim C3 (confirmed): every append leaves at most 1000 records, the
post-append history is a suffix of "old history plus the new record" (so
eviction takes the oldest entries first and preserves insertion order
among survivors), the newest record is always retained last, and a run of
1001 appends starting from the empty store keeps exactly the last 1000
records, evicting the first-appended one. -/
theorem C3_history_cap (history : List Record) (r : Record) (now : PyStr)
    (rs : List (Record × PyStr)) (hrs : rs.length = 1001) :
    (save_analysis history r now).length ≤ 1000
    ∧ List.IsSuffix (save_analysis history r now) (history ++ [setTimestamp r now])
    ∧ (save_analysis history r now).getLast? = some (setTimestamp r now)
    ∧ List.foldl (fun acc p => save_analysis acc p.1 p.2) [] rs
        = (rs.map (fun p => setTimestamp p.1 p.2)).drop 1
    ∧ (List.foldl (fun acc p => save_analysis acc p.1 p.2) [] rs).length = 1000 := by
  have hfold : List.foldl (fun acc p => save_analysis acc p.1 p.2) [] rs
      = (rs.map (fun p => setTimestamp p.1 p.2)).drop 1 := by
    rcases List.eq_nil_or_concat rs with hnil | ⟨D, L, hDL⟩
    · subst hnil
      exact absurd hrs (by decide)
    · subst hDL
      simp only [List.concat_eq_append] at hrs ⊢
      have hD : D.length = 1000 := by
        simp only [List.length_append, List.length_cons, List.length_nil] at hrs; omega
      rw [List.foldl_append]
      rw [foldl_save_small D [] (by simp [hD])]
      simp only [List.nil_append, List.foldl_cons, List.foldl_nil]
      rw [save_analysis_eq]
      have hlen : (D.map (fun p => setTimestamp p.1 p.2)).length = 1000 := by simp [hD]
      rw [hlen]
      simp only [List.map_append, List.map_cons, List.map_nil]
  refine ⟨?_, ?_, ?_, hfold, ?_⟩
  · rw [save_analysis_eq]
    simp only [List.length_drop, List.length_append, List.length_singleton]
    omega
  · rw [save_analysis_eq]
    exact List.drop_suffix _ _
  · rw [save_analysis_eq]
    have hk : history.length + 1 - 1000 ≤ history.length := by omega
    rw [List.drop_append_of_le_length hk]
    exact List.getLast?_concat _
  · rw [hfold]
    simp [hrs]

/-- Instantiation of C3 at a concrete run of 1001 appends. -/
theorem C3_history_cap_witness :
    (save_analysis [] sampleValid []).length ≤ 1000
    ∧ List.IsSuffix (save_analysis [] sampleValid []) ([] ++ [setTimestamp sampleValid []])
    ∧ (save_analysis [] sampleValid []).getLast? = some (setTimestamp sampleValid [])
    ∧ List.foldl (fun acc p => save_analysis acc p.1 p.2) []
        (List.replicate 1001 (sampleValid, ([] : PyStr)))
        = ((List.replicate 1001 (sampleValid, ([] : PyStr))).map
            (fun p => setTimestamp p.1 p.2)).drop 1
    ∧ (List.foldl (fun acc p => save_analysis acc p.1 p.2) []
        (List.replicate 1001 (sampleValid, ([] : PyStr)))).length = 1000 :=
  C3_history_cap [] sampleValid [] (List.replicate 1001 (sampleValid, ([] : PyStr)))
    (by rw [List.length_replicate])

/-- Claim C5 (counterexample): with one stored record and `limit = 0`,
`get_recent_analyses` returns the whole one-element history rather than
the empty sequence that "the last 0 elements" denotes. -/
theorem C5_counterexample :
    get_recent_analyses [sampleValid] 0 = [sampleValid]
    ∧ (get_recent_analyses [sampleValid] 0).length = 1 :=
  ⟨rfl, rfl⟩

/-- Claim C5 (corrected): for every `limit ≥ 1`, `recent(limit)` is the
last `limit` elements in chronological order — a suffix of the log, of
length `min limit length`, the whole log when `limit` exceeds the length,
and empty on the empty log.  For `limit = 0`, however, the Python slice
`[-0:]` returns the whole log, not the empty sequence. -/
theorem C5_recent (history : List Record) (limit : ℕ) (hpos : 1 ≤ limit) :
    get_recent_analyses history limit = (history.reverse.take limit).reverse
    ∧ (history.length ≤ limit → get_recent_analyses history limit = history)
    ∧ (get_recent_analyses history limit).length = min limit history.length
    ∧ List.IsSuffix (get_recent_analyses history limit) history
    ∧ get_recent_analyses ([] : List Record) limit = []
    ∧ get_recent_analyses history 0 = (if history = [] then [] else history) := by
  have hnz : ¬ limit = 0 := by omega
  by_cases hh : history = []
  · subst hh
    refine ⟨?_, fun _ => ?_, ?_, ?_, ?_, ?_⟩
    · simp [get_recent_analyses]
    · simp [get_recent_analyses]
    · simp [get_recent_analyses]
    · simp [get_recent_analyses]
    · simp [get_recent_analyses]
    · simp [get_recent_analyses]
  · have hrw : get_recent_analyses history limit = history.drop (history.length - limit) := by
      unfold get_recent_analyses
      rw [if_neg hh, if_neg hnz]
    refine ⟨?_, ?_, ?_, ?_, ?_, ?_⟩
    · rw [hrw]
      exact List.rtake_eq_reverse_take_reverse history limit
    · intro hle
      rw [hrw]
      have : history.length - limit = 0 := by omega
      rw [this, List.drop_zero]
    · rw [hrw]
      simp only [List.length_drop]
      omega
    · rw [hrw]
      exact List.drop_suffix _ _
    · simp [get_recent_analyses]
    · simp [get_recent_analyses, hh]

/-- Instantiation of C5 at a two-record history. -/
theorem C5_recent_witness :
    get_recent_analyses [sampleErr, sampleValid] 3 = [sampleErr, sampleValid]
    ∧ (get_recent_analyses [sampleErr, sampleValid] 2).length = min 2 2 := by
  constructor
  · exact (C5_recent [sampleErr, sampleValid] 3 (by omega)).2.1 (by simp)
  · have h := (C5_recent [sampleErr, sampleValid] 2 (by omega)).2.2.1
    simpa using h

theorem count_sentiments_total (l : List Sentiment) :
    l.count .POSITIVE + l.count .NEGATIVE + l.count .NEUTRAL = l.length := by
  induction l with
  | nil => simp
  | cons a l ih =>
    cases a <;> simp [List.count_cons] <;> omega

/-- Claim C8 (confirmed): restricted to the three sentiment counts and the
rounded confidence mean, `get_statistics` and `calculate_batch_stats`
compute the same function of an arbitrary record sequence — including the
empty sequence and sequences with no valid record, where both restrictions
are absent. -/
theorem C8_same_reduction (h : List Record) :
    statsView (get_statistics h) = batchView (calculate_batch_stats h) := by
  by_cases h0 : h = []
  · subst h0; rfl
  · simp only [get_statistics, calculate_batch_stats]
    rw [if_neg h0]
    by_cases hv : h.filterMap validOf = []
    · rw [if_pos hv, if_pos hv]
      rfl
    · rw [if_neg hv, if_neg hv]
      rfl

/-- Claim C10 (confirmed): whenever the history aggregator returns its
full snapshot (non-empty history with at least one valid record), its
counts satisfy `valid_results + errors = total_analyzed` and
`positive + negative + neutral = valid_results`; the analogous identities
hold for every non-empty (`≠ {}`) output of the batch reducer. -/
theorem C10_count_identities (h rs : List Record) (hne : h ≠ [])
    (hval : h.filterMap validOf ≠ []) (hvalb : rs.filterMap validOf ≠ []) :
    ((fullOf (get_statistics h)).map (fun s => s.valid_results + s.errors)
        = (fullOf (get_statistics h)).map (fun s => s.total_analyzed))
    ∧ ((fullOf (get_statistics h)).map (fun s => s.positive + s.negative + s.neutral)
        = (fullOf (get_statistics h)).map (fun s => s.valid_results))
    ∧ fullOf (get_statistics h) ≠ none
    ∧ ((calculate_batch_stats rs).map (fun b => b.valid + b.errors)
        = (calculate_batch_stats rs).map (fun b => b.total))
    ∧ ((calculate_batch_stats rs).map (fun b => b.positive + b.negative + b.neutral)
        = (calculate_batch_stats rs).map (fun b => b.valid))
    ∧ calculate_batch_stats rs ≠ none := by
  have hle : (h.filterMap validOf).length ≤ h.length := List.length_filterMap_le _ _
  have hleb : (rs.filterMap validOf).length ≤ rs.length := List.length_filterMap_le _ _
  have hcount : ∀ l : List ValidRecord,
      (l.map (fun r => r.sentiment)).count .POSITIVE
        + (l.map (fun r => r.sentiment)).count .NEGATIVE
        + (l.map (fun r => r.sentiment)).count .NEUTRAL = l.length := by
    intro l
    have := count_sentiments_total (l.map (fun r => r.sentiment))
    simpa using this
  refine ⟨?_, ?_, ?_, ?_, ?_, ?_⟩
  · simp only [get_statistics, if_neg hne, if_neg hval, fullOf, Option.map_some',
      Option.some.injEq]
    omega
  · simp only [get_statistics, if_neg hne, if_neg hval, fullOf, Option.map_some',
      Option.some.injEq]
    exact hcount _
  · simp only [get_statistics, if_neg hne, if_neg hval, fullOf]
    simp
  · simp only [calculate_batch_stats, if_neg hvalb, Option.map_some', Option.some.injEq]
    omega
  · simp only [calculate_batch_stats, if_neg hvalb, Option.map_some', Option.some.injEq]
    exact hcount _
  · simp only [calculate_batch_stats, if_neg hvalb]
    simp

theorem pyRound_zero (n : ℕ) : pyRound n 0 = 0 := by
  unfold pyRound pyRoundHalfEven
  norm_num

/-- Claim C4 (counterexample): on `"ALL CAPS!!!"` the uppercase ratio the
code computes is `7/11` — seven uppercase letters over the full length 11,
spaces and punctuation included in the denominator — not the `1.0` the
claim states. -/
theorem C4_counterexample :
    (extract_features capsText).uppercase_ratio = 7 / 11
    ∧ (extract_features capsText).uppercase_ratio ≠ 1 := by
  have h7 : (capsText.filter Char.isUpper).length = 7 := by decide
  have h11 : (max capsText.length 1 : ℕ) = 11 := by decide
  have key : (extract_features capsText).uppercase_ratio = 7 / 11 := by
    simp only [extract_features]
    rw [h7, h11]
    norm_num
  refine ⟨key, ?_⟩
  rw [key]
  norm_num

/-- Claim C4 (corrected): `extract_features("ALL CAPS!!!")` has
`all_caps = true` and `exclamation_count = 3`, but `uppercase_ratio`
is `7/11` (uppercase count over the full length, punctuation included),
not `1.0`; the empty text has ratio `0`, and `all_caps` is true only when
the whole string is uppercase and longer than 3 characters. -/
theorem C4_features (t : PyStr) (hcaps : (extract_features t).all_caps = true) :
    (extract_features capsText).all_caps = true
    ∧ (extract_features capsText).exclamation_count = 3
    ∧ (extract_features capsText).uppercase_ratio = 7 / 11
    ∧ (extract_features ([] : PyStr)).uppercase_ratio = 0
    ∧ pyIsUpper t = true ∧ 3 < t.length := by
  have h7 : (capsText.filter Char.isUpper).length = 7 := by decide
  have h11 : (max capsText.length 1 : ℕ) = 11 := by decide
  have h2 := hcaps
  simp only [extract_features, Bool.and_eq_true, decide_eq_true_eq] at h2
  refine ⟨by decide, by decide, ?_, ?_, h2.1, h2.2⟩
  · simp only [extract_features]
    rw [h7, h11]
    norm_num
  · simp [extract_features]

/-- Instantiation of C4 at the all-caps text `"ABCD"`. -/
theorem C4_features_witness :
    (extract_features capsText).all_caps = true
    ∧ (extract_features capsText).exclamation_count = 3
    ∧ (extract_features capsText).uppercase_ratio = 7 / 11
    ∧ (extract_features ([] : PyStr)).uppercase_ratio = 0
    ∧ pyIsUpper ("ABCD".toList) = true ∧ 3 < ("ABCD".toList).length :=
  C4_features ("ABCD".toList) (by decide)

/-- Claim C1 (counterexample): at label `"1 star"` and score `1/100000`
(a score in `[0,1]` whose label contains "star" and parses to `stars = 1`),
the stored `sentiment_score` is `round(-score, 4) = 0`, not the claim's
`-score = -1/100000`. -/
theorem C1_counterexample :
    containsSub ("star".toList) (("1 star".toList).map lowerChar) = true
    ∧ leading_int ("1 star".toList) = some 1
    ∧ ((0 : ℚ) ≤ 1 / 100000 ∧ (1 / 100000 : ℚ) ≤ 1)
    ∧ (process_result ("1 star".toList) (1 / 100000)).map (fun r => r.sentiment_score)
        = some 0
    ∧ (-(1 / 100000) : ℚ) ≠ 0 := by
  have hfl : ⌊(-(1 / 100000 : ℚ)) * 10 ^ 4⌋ = -1 := by
    rw [Int.floor_eq_iff]
    norm_num
  have hr : pyRound 4 (-(1 / 100000 : ℚ)) = 0 := by
    unfold pyRound pyRoundHalfEven
    rw [hfl]
    norm_num
  refine ⟨by decide, by decide, ⟨by norm_num, by norm_num⟩, ?_, by norm_num⟩
  have hbranch : (process_result ("1 star".toList) (1 / 100000)).map
      (fun r => r.sentiment_score) = some (pyRound 4 (-(1 / 100000))) := rfl
  rw [hbranch, hr]

/-- Claim C1 (corrected): for a 5-star label whose leading token parses to
`stars`, the record's sentiment is NEGATIVE / NEUTRAL / POSITIVE according
to `stars ≤ 2` / `stars = 3` / `stars ≥ 4`, `confidence = round(score, 4)`,
and the stored `sentiment_score` is the 4-decimal *rounded* value
`round(-score, 4)`, `0`, or `round(score, 4)` respectively (the code
rounds `sentiment_score` exactly as it rounds `confidence`). -/
theorem C1_star_scheme (label : PyStr) (score : ℚ) (stars : ℤ)
    (hstar : containsSub ("star".toList) (label.map lowerChar) = true)
    (hparse : leading_int label = some stars)
    (h0 : 0 ≤ score) (h1 : score ≤ 1) :
    (process_result label score).map
        (fun r => (r.sentiment, r.sentiment_score, r.confidence, r.stars))
      = some
          ((if stars ≤ 2 then Sentiment.NEGATIVE
            else if stars = 3 then Sentiment.NEUTRAL else Sentiment.POSITIVE),
           (if stars ≤ 2 then pyRound 4 (-score)
            else if stars = 3 then 0 else pyRound 4 score),
           pyRound 4 score, stars) := by
  simp only [process_result, hstar, if_true, hparse]
  split_ifs with hs2 hs3
  · simp
  · simp [pyRound_zero]
  · simp

/-- Instantiation of C1 at label `"2 stars"`, score `3/4`. -/
theorem C1_star_scheme_witness :
    (process_result ("2 stars".toList) (3 / 4)).map
        (fun r => (r.sentiment, r.sentiment_score, r.confidence, r.stars))
      = some
          ((if (2 : ℤ) ≤ 2 then Sentiment.NEGATIVE
            else if (2 : ℤ) = 3 then Sentiment.NEUTRAL else Sentiment.POSITIVE),
           (if (2 : ℤ) ≤ 2 then pyRound 4 (-(3 / 4))
            else if (2 : ℤ) = 3 then 0 else pyRound 4 (3 / 4)),
           pyRound 4 (3 / 4), 2) :=
  C1_star_scheme ("2 stars".toList) (3 / 4) 2 (by decide) (by decide)
    (by norm_num) (by norm_num)

/-- Claim C2 (counterexample): at label `"POSITIVE"` and score `1/100000`,
the stored `sentiment_score` is `round(score, 4) = 0`, not the claim's
`score = 1/100000`. -/
theorem C2_counterexample :
    containsSub ("star".toList) (("POSITIVE".toList).map lowerChar) = false
    ∧ ("POSITIVE".toList).map upperChar = "POSITIVE".toList
    ∧ ((0 : ℚ) ≤ 1 / 100000 ∧ (1 / 100000 : ℚ) ≤ 1)
    ∧ (process_result ("POSITIVE".toList) (1 / 100000)).map (fun r => r.sentiment_score)
        = some 0
    ∧ (1 / 100000 : ℚ) ≠ 0 := by
  have hfl : ⌊((1 / 100000 : ℚ)) * 10 ^ 4⌋ = 0 := by
    rw [Int.floor_eq_iff]
    norm_num
  have hr : pyRound 4 ((1 / 100000 : ℚ)) = 0 := by
    unfold pyRound pyRoundHalfEven
    rw [hfl]
    norm_num
  refine ⟨by decide, by decide, ⟨by norm_num, by norm_num⟩, ?_, by norm_num⟩
  have hbranch : (process_result ("POSITIVE".toList) (1 / 100000)).map
      (fun r => r.sentiment_score) = some (pyRound 4 (1 / 100000)) := rfl
  rw [hbranch, hr]

/-- Claim C2 (corrected): for a non-star label, `"POSITIVE"`
(case-insensitively) or the literal `"LABEL_1"` maps to POSITIVE with
`stars = 4` when `score > 0.9` and `5` otherwise; every other label maps
to NEGATIVE with `stars = 2` when `score > 0.9` and `1` otherwise.
`confidence = round(score, 4)`, and the stored `sentiment_score` is the
*rounded* `round(score, 4)` (resp. `round(-score, 4)`), not the raw
score.  In particular `"POSITIVE"` at `0.95` gives 4 stars and at `0.5`
gives 5. -/
theorem C2_binary_scheme (label : PyStr) (score : ℚ)
    (hns : containsSub ("star".toList) (label.map lowerChar) = false)
    (h0 : 0 ≤ score) (h1 : score ≤ 1) :
    ((process_result label score).map
        (fun r => (r.sentiment, r.sentiment_score, r.confidence, r.stars))
      = some
          (if label.map upperChar = "POSITIVE".toList ∨ label = "LABEL_1".toList then
            (Sentiment.POSITIVE, pyRound 4 score, pyRound 4 score,
             if (0.9 : ℚ) < score then (4 : ℤ) else 5)
          else
            (Sentiment.NEGATIVE, pyRound 4 (-score), pyRound 4 score,
             if (0.9 : ℚ) < score then (2 : ℤ) else 1)))
    ∧ (process_result ("POSITIVE".toList) (0.95 : ℚ)).map (fun r => r.stars) = some 4
    ∧ (process_result ("POSITIVE".toList) (0.5 : ℚ)).map (fun r => r.stars) = some 5 := by
  refine ⟨?_, ?_, ?_⟩
  · simp only [process_result, hns, Bool.false_eq_true, if_false]
    split_ifs <;> simp
  · have hb : (process_result ("POSITIVE".toList) (0.95 : ℚ)).map (fun r => r.stars)
        = some (if (0.9 : ℚ) < (0.95 : ℚ) then (4 : ℤ) else 5) := rfl
    rw [hb, if_pos (by norm_num)]
  · have hb : (process_result ("POSITIVE".toList) (0.5 : ℚ)).map (fun r => r.stars)
        = some (if (0.9 : ℚ) < (0.5 : ℚ) then (4 : ℤ) else 5) := rfl
    rw [hb, if_neg (by norm_num)]

/-- Instantiation of C2 at the literal label `"LABEL_1"`, score `1/2`. -/
theorem C2_binary_scheme_witness :
    ((process_result ("LABEL_1".toList) (1 / 2)).map
        (fun r => (r.sentiment, r.sentiment_score, r.confidence, r.stars))
      = some
          (if ("LABEL_1".toList).map upperChar = "POSITIVE".toList
              ∨ "LABEL_1".toList = "LABEL_1".toList then
            (Sentiment.POSITIVE, pyRound 4 (1 / 2), pyRound 4 (1 / 2),
             if (0.9 : ℚ) < 1 / 2 then (4 : ℤ) else 5)
          else
            (Sentiment.NEGATIVE, pyRound 4 (-(1 / 2)), pyRound 4 (1 / 2),
             if (0.9 : ℚ) < 1 / 2 then (2 : ℤ) else 1)))
    ∧ (process_result ("POSITIVE".toList) (0.95 : ℚ)).map (fun r => r.stars) = some 4
    ∧ (process_result ("POSITIVE".toList) (0.5 : ℚ)).map (fun r => r.stars) = some 5 :=
  C2_binary_scheme ("LABEL_1".toList) (1 / 2) (by decide) (by norm_num) (by norm_num)

/-! Whitespace-only strings pass unchanged through every deleting pass of
`clean_text` (no pattern can match inside them), collapse to a single
space, and are stripped to the empty string. -/

theorem neSpaceChar_beq_false (p c : Char) (hp : pyIsSpace p = false)
    (hc : pyIsSpace c = true) : (p == c) = false := by
  rw [beq_eq_false_iff_ne]
  intro he
  rw [he, hc] at hp
  exact absurd hp (by simp)

theorem isPrefixOf_space_head_false (p : Char) (ps : PyStr) (hp : pyIsSpace p = false)
    (c : Char) (cs : PyStr) (hc : pyIsSpace c = true) :
    List.isPrefixOf (p :: ps) (c :: cs) = false := by
  simp [List.isPrefixOf, neSpaceChar_beq_false p c hp hc]

theorem all_cons_space {c : Char} {cs : PyStr} (hall : (c :: cs).all pyIsSpace = true) :
    pyIsSpace c = true ∧ cs.all pyIsSpace = true := by
  simp only [List.all_cons, Bool.and_eq_true] at hall
  exact hall

theorem replaceAll_blank (pat repl : PyStr) (hp : headNonSpace pat = true) :
    ∀ s : PyStr, s.all pyIsSpace = true → replaceAll pat repl s = s := by
  intro s
  induction s with
  | nil => intro _; simp [replaceAll]
  | cons c cs ih =>
    intro hall
    obtain ⟨hc, hcs⟩ := all_cons_space hall
    obtain ⟨p, ps, hpat⟩ : ∃ p ps, pat = p :: ps := by
      cases pat with
      | nil => exact absurd hp (by simp [headNonSpace])
      | cons p ps => exact ⟨p, ps, rfl⟩
    have hps : pyIsSpace p = false := by
      rw [hpat] at hp
      simpa [headNonSpace] using hp
    have hnp : pat.isPrefixOf (c :: cs) = false := by
      rw [hpat]
      exact isPrefixOf_space_head_false p ps hps c cs hc
    rw [replaceAll, hnp]
    simp only [Bool.false_eq_true, if_false]
    rw [ih hcs]

theorem convert_emojis_blank (s : PyStr) (hs : s.all pyIsSpace = true) :
    convert_emojis s = s := by
  unfold convert_emojis
  have htable : ∀ p ∈ emoji_dict, headNonSpace p.1 = true := by decide
  generalize emoji_dict = tbl at htable
  induction tbl with
  | nil => rfl
  | cons p ps ih =>
    simp only [List.foldl_cons]
    rw [replaceAll_blank p.1 (' ' :: (p.2 ++ [' '])) (htable p (by simp)) s hs]
    exact ih (fun q hq => htable q (by simp [hq]))

theorem matchURLLen_blank (c : Char) (cs : PyStr) (hc : pyIsSpace c = true) :
    matchURLLen (c :: cs) = none := by
  have h8 : List.isPrefixOf ("https://".toList) (c :: cs) = false := by
    rw [show ("https://".toList) = 'h' :: ("ttps://".toList) from rfl]
    exact isPrefixOf_space_head_false 'h' _ (by decide) c cs hc
  have h7 : List.isPrefixOf ("http://".toList) (c :: cs) = false := by
    rw [show ("http://".toList) = 'h' :: ("ttp://".toList) from rfl]
    exact isPrefixOf_space_head_false 'h' _ (by decide) c cs hc
  unfold matchURLLen
  rw [h8, h7]
  simp

theorem stripURLs_blank (s : PyStr) (hs : s.all pyIsSpace = true) : stripURLs s = s := by
  induction s with
  | nil => simp [stripURLs]
  | cons c cs ih =>
    obtain ⟨hc, hcs⟩ := all_cons_space hs
    rw [stripURLs, matchURLLen_blank c cs hc]
    rw [ih hcs]

theorem stripMentions_blank (s : PyStr) (hs : s.all pyIsSpace = true) :
    stripMentions s = s := by
  induction s with
  | nil => simp [stripMentions]
  | cons c cs ih =>
    obtain ⟨hc, hcs⟩ := all_cons_space hs
    have hne : ¬ c = '@' := by
      intro he
      rw [he] at hc
      exact absurd hc (by decide)
    rw [stripMentions, if_neg hne, ih hcs]

theorem unwrapHashtags_blank (s : PyStr) (hs : s.all pyIsSpace = true) :
    unwrapHashtags s = s := by
  induction s with
  | nil => simp [unwrapHashtags]
  | cons c cs ih =>
    obtain ⟨hc, hcs⟩ := all_cons_space hs
    have hne : ¬ c = '#' := by
      intro he
      rw [he] at hc
      exact absurd hc (by decide)
    rw [unwrapHashtags, if_neg hne, ih hcs]

theorem stripTags_blank (s : PyStr) (hs : s.all pyIsSpace = true) : stripTags s = s := by
  induction s with
  | nil => simp [stripTags]
  | cons c cs ih =>
    obtain ⟨hc, hcs⟩ := all_cons_space hs
    have hne : ¬ c = '<' := by
      intro he
      rw [he] at hc
      exact absurd hc (by decide)
    rw [stripTags, if_neg hne, ih hcs]

theorem collapseWS_blank (s : PyStr) (hs : s.all pyIsSpace = true) :
    collapseWS s = if s = [] then [] else [' '] := by
  induction s with
  | nil => simp [collapseWS]
  | cons c cs ih =>
    obtain ⟨hc, hcs⟩ := all_cons_space hs
    cases cs with
    | nil => simp [collapseWS, hc]
    | cons d ds =>
      obtain ⟨hd, _⟩ := all_cons_space hcs
      rw [collapseWS]
      rw [if_pos (by rw [hc, hd]; rfl)]
      rw [ih hcs]
      simp

theorem pyStrip_blank (s : PyStr) (hs : s.all pyIsSpace = true) : pyStrip s = [] := by
  unfold pyStrip
  have h1 : s.dropWhile pyIsSpace = [] := by
    rw [List.dropWhile_eq_nil_iff]
    intro x hx
    simp only [List.all_eq_true] at hs
    exact hs x hx
  rw [h1]
  simp

theorem clean_text_blank (s : PyStr) (hs : s.all pyIsSpace = true) : clean_text s = [] := by
  unfold clean_text
  by_cases hnil : s = []
  · rw [if_pos hnil]
  · rw [if_neg hnil]
    rw [convert_emojis_blank s hs, stripURLs_blank s hs, stripMentions_blank s hs,
      unwrapHashtags_blank s hs, stripTags_blank s hs, collapseWS_blank s hs, if_neg hnil]
    decide

theorem analyze_blank (classify : Classifier) (dt : ℚ) (text : PyStr)
    (hblank : text.all pyIsSpace = true) :
    analyze classify dt text = Except.error emptyTextMsg := by
  unfold analyze
  rw [if_pos (Or.inr (by rw [pyStrip_blank text hblank]; rfl))]

/-- Claim C6 (confirmed): for an empty or whitespace-only text, `analyze`
raises the invalid-input `ValueError` (an outcome distinct from the
classifier-failure error record, which is a *returned* result), the
`/api/analyze` route leaves the history unchanged (no record is
appended), the route's response is an error response (the 500
`ANALYSIS_ERROR` answer, or the 400 length guard for an over-long blank
text), and the whole outcome is independent of the classifier and of the
measured duration — the classifier is never consulted. -/
theorem C6_empty_input (classify classify2 : Classifier) (dt dt2 : ℚ)
    (history : List Record) (now : PyStr) (text : PyStr) (preprocess : Bool)
    (hblank : text.all pyIsSpace = true) :
    analyze classify dt text = Except.error emptyTextMsg
    ∧ (analyze_text classify dt history now text preprocess).2 = history
    ∧ ((analyze_text classify dt history now text preprocess).1 = SingleResp.tooLong
       ∨ (analyze_text classify dt history now text preprocess).1
           = SingleResp.analysisError emptyTextMsg)
    ∧ analyze_text classify dt history now text preprocess
        = analyze_text classify2 dt2 history now text preprocess := by
  have hana : ∀ (cl : Classifier) (d : ℚ),
      analyze cl d (if preprocess then clean_text text else text)
        = Except.error emptyTextMsg := by
    intro cl d
    cases preprocess with
    | false => exact analyze_blank cl d text hblank
    | true =>
      simp only [if_true]
      rw [clean_text_blank text hblank]
      exact analyze_blank cl d [] (by decide)
  by_cases h5 : 5000 < text.length
  · refine ⟨analyze_blank classify dt text hblank, ?_, ?_, ?_⟩
    · unfold analyze_text
      rw [if_pos h5]
    · unfold analyze_text
      rw [if_pos h5]
      exact Or.inl rfl
    · unfold analyze_text
      rw [if_pos h5, if_pos h5]
  · have hroute : ∀ (cl : Classifier) (d : ℚ),
        analyze_text cl d history now text preprocess
          = (SingleResp.analysisError emptyTextMsg, history) := by
      intro cl d
      unfold analyze_text
      rw [if_neg h5, hana cl d]
    refine ⟨analyze_blank classify dt text hblank, ?_, ?_, ?_⟩
    · rw [hroute classify dt]
    · rw [hroute classify dt]
      exact Or.inr rfl
    · rw [hroute classify dt, hroute classify2 dt2]

/-- Instantiation of C6 at the two-space text, with two different
classifiers. -/
theorem C6_empty_input_witness :
    analyze failClassifier 0 ("  ".toList) = Except.error emptyTextMsg
    ∧ (analyze_text failClassifier 0 [] [] ("  ".toList) true).2 = []
    ∧ ((analyze_text failClassifier 0 [] [] ("  ".toList) true).1 = SingleResp.tooLong
       ∨ (analyze_text failClassifier 0 [] [] ("  ".toList) true).1
           = SingleResp.analysisError emptyTextMsg)
    ∧ analyze_text failClassifier 0 [] [] ("  ".toList) true
        = analyze_text posClassifier 1 [] [] ("  ".toList) true :=
  C6_empty_input failClassifier posClassifier 0 1 [] [] ("  ".toList) true (by decide)

/-- Instantiation of C10 at a concrete mixed history and batch. -/
theorem C10_count_identities_witness :
    ((fullOf (get_statistics [sampleValid, sampleErr])).map (fun s => s.valid_results + s.errors)
        = (fullOf (get_statistics [sampleValid, sampleErr])).map (fun s => s.total_analyzed))
    ∧ ((fullOf (get_statistics [sampleValid, sampleErr])).map
          (fun s => s.positive + s.negative + s.neutral)
        = (fullOf (get_statistics [sampleValid, sampleErr])).map (fun s => s.valid_results))
    ∧ fullOf (get_statistics [sampleValid, sampleErr]) ≠ none
    ∧ ((calculate_batch_stats [sampleValid]).map (fun b => b.valid + b.errors)
        = (calculate_batch_stats [sampleValid]).map (fun b => b.total))
    ∧ ((calculate_batch_stats [sampleValid]).map (fun b => b.positive + b.negative + b.neutral)
        = (calculate_batch_stats [sampleValid]).map (fun b => b.valid))
    ∧ calculate_batch_stats [sampleValid] ≠ none :=
  C10_count_identities [sampleValid, sampleErr] [sampleValid] (by simp)
    (by decide) (by decide)

theorem analyze_textOriginal (classify : Classifier) (dt : ℚ) (t : PyStr)
    (r : AnalyzeResult) (h : analyze classify dt t = Except.ok r) : textOriginalOf r = t := by
  unfold analyze at h
  by_cases hguard : t = [] ∨ (pyStrip t).length = 0
  · rw [if_pos hguard] at h
    exact absurd h (by simp)
  · rw [if_neg hguard] at h
    cases hcl : classify (if 500 < t.length then t.take 500 else t) with
    | error e =>
      rw [hcl] at h
      cases h
      rfl
    | ok p =>
      rcases p with ⟨label, score⟩
      rw [hcl] at h
      dsimp only at h
      cases hpr : process_result label score with
      | none =>
        rw [hpr] at h
        cases h
        rfl
      | some core =>
        rw [hpr] at h
        cases h
        rfl

/-- Claim C7 (counterexample): a whitespace-only batch item of 101
characters makes `analyze` raise; the batch error record then stores
`text_original` truncated to the first 100 characters plus `"..."`, which
differs from the submitted item — so not every record keeps the full
input. -/
theorem C7_counterexample :
    analyze_batch failClassifier 0 [List.replicate 101 ' ']
      = [BatchItem.raised 0 emptyTextMsg (List.replicate 100 ' ' ++ "...".toList)]
    ∧ (List.replicate 100 ' ' ++ "...".toList) ≠ List.replicate 101 ' ' := by
  constructor
  · decide
  · decide

/-- Claim C7 (corrected): `analyze` feeds the classifier exactly the first
500 characters of over-long text (the full text otherwise) — its outcome
depends on the classifier only through that truncated text —, a success
record has `text_analyzed` equal to the truncated text, `text_truncated`
set exactly when the text exceeded 500 characters, and `text_original`
equal to the full input, as does a classifier-failure record; a batch item
whose analysis did not raise keeps `text_original` equal to the full item,
but a batch item whose analysis raised stores the item truncated to 100
characters plus `"..."` whenever the item exceeds 100 characters. -/
theorem C7_truncation (classify c1 c2 : Classifier) (dt : ℚ) (text : PyStr)
    (texts : List PyStr) (i : ℕ) (t : PyStr)
    (hnb : ¬ (text = [] ∨ (pyStrip text).length = 0))
    (ht : texts.get? i = some t)
    (h12 : c1 (if 500 < text.length then text.take 500 else text)
             = c2 (if 500 < text.length then text.take 500 else text)) :
    analyze c1 dt text = analyze c2 dt text
    ∧ (∀ core t0 ta tt len pt, analyze classify dt text
          = Except.ok (AnalyzeResult.ok core t0 ta tt len pt) →
          t0 = text ∧ ta = (if 500 < text.length then text.take 500 else text)
            ∧ tt = decide (500 < text.length) ∧ len = text.length)
    ∧ (∀ e t0 pt, analyze classify dt text = Except.ok (AnalyzeResult.err e t0 pt) →
          t0 = text)
    ∧ (∀ j r, (analyze_batch classify dt texts).get? i = some (BatchItem.res j r) →
          j = i ∧ textOriginalOf r = t)
    ∧ (∀ j e t0, (analyze_batch classify dt texts).get? i = some (BatchItem.raised j e t0) →
          j = i ∧ t0 = (if 100 < t.length then t.take 100 ++ "...".toList else t)) := by
  have hb : (analyze_batch classify dt texts).get? i
      = some (match analyze classify dt t with
              | Except.ok r => BatchItem.res i r
              | Except.error e =>
                  BatchItem.raised i e
                    (if 100 < t.length then t.take 100 ++ "...".toList else t)) := by
    unfold analyze_batch
    rw [List.get?_map, List.get?_enum, ht]
    rfl
  refine ⟨?_, ?_, ?_, ?_, ?_⟩
  · unfold analyze
    rw [if_neg hnb, if_neg hnb, h12]
  · intro core t0 ta tt len pt h
    unfold analyze at h
    rw [if_neg hnb] at h
    cases hcl : classify (if 500 < text.length then text.take 500 else text) with
    | error e =>
      rw [hcl] at h
      exact absurd h (by simp)
    | ok p =>
      rcases p with ⟨label, score⟩
      rw [hcl] at h
      dsimp only at h
      cases hpr : process_result label score with
      | none =>
        rw [hpr] at h
        exact absurd h (by simp)
      | some core2 =>
        rw [hpr] at h
        simp only [Except.ok.injEq, AnalyzeResult.ok.injEq] at h
        exact ⟨h.2.1.symm, h.2.2.1.symm, h.2.2.2.1.symm, h.2.2.2.2.1.symm⟩
  · intro e t0 pt h
    unfold analyze at h
    rw [if_neg hnb] at h
    cases hcl : classify (if 500 < text.length then text.take 500 else text) with
    | error e2 =>
      rw [hcl] at h
      simp only [Except.ok.injEq, AnalyzeResult.err.injEq] at h
      exact h.2.1.symm
    | ok p =>
      rcases p with ⟨label, score⟩
      rw [hcl] at h
      dsimp only at h
      cases hpr : process_result label score with
      | none =>
        rw [hpr] at h
        simp only [Except.ok.injEq, AnalyzeResult.err.injEq] at h
        exact h.2.1.symm
      | some core2 =>
        rw [hpr] at h
        exact absurd h (by simp)
  · intro j r hjr
    rw [hb] at hjr
    cases hcl : analyze classify dt t with
    | error e =>
      rw [hcl] at hjr
      exact absurd hjr (by simp)
    | ok r2 =>
      rw [hcl] at hjr
      simp only [Option.some.injEq, BatchItem.res.injEq] at hjr
      refine ⟨hjr.1.symm, ?_⟩
      rw [← hjr.2]
      exact analyze_textOriginal classify dt t r2 hcl
  · intro j e t0 hjr
    rw [hb] at hjr
    cases hcl : analyze classify dt t with
    | error e2 =>
      rw [hcl] at hjr
      simp only [Option.some.injEq, BatchItem.raised.injEq] at hjr
      exact ⟨hjr.1.symm, hjr.2.2.symm⟩
    | ok r2 =>
      rw [hcl] at hjr
      exact absurd hjr (by simp)

set_option maxRecDepth 40000 in
/-- Instantiation of C7 at a 501-character text and a batch containing a
101-character whitespace item. -/
theorem C7_truncation_witness :
    (List.replicate 501 'a' = List.replicate 501 'a'
      ∧ List.replicate 500 'a'
          = (if 500 < (List.replicate 501 'a').length
             then (List.replicate 501 'a').take 500 else List.replicate 501 'a')
      ∧ true = decide (500 < (List.replicate 501 'a').length)
      ∧ 501 = (List.replicate 501 'a').length)
    ∧ (0 = 0
      ∧ (List.replicate 100 ' ' ++ "...".toList)
          = (if 100 < (List.replicate 101 ' ').length
             then (List.replicate 101 ' ').take 100 ++ "...".toList
             else List.replicate 101 ' ')) := by
  have key := C7_truncation posClassifier posClassifier posClassifier 0
    (List.replicate 501 'a') [List.replicate 101 ' ', "ok".toList] 0 (List.replicate 101 ' ')
    (by decide) (by decide) rfl
  refine ⟨?_, ?_⟩
  · exact key.2.1 corePos (List.replicate 501 'a') (List.replicate 500 'a') true 501 0 rfl
  · exact key.2.2.2.2 0 emptyTextMsg (List.replicate 100 ' ' ++ "...".toList) rfl

/-- Claim C9 (counterexample): a successful one-item batch request leaves
the history empty — the batch route produces a valid per-item result but,
unlike the single-text route (which appends its result), stores nothing. -/
theorem C9_counterexample :
    (analyze_batch_route posClassifier 0 [] ["good".toList] false).2 = []
    ∧ (batchRespItems
        (analyze_batch_route posClassifier 0 [] ["good".toList] false).1).countP isValidItem = 1
    ∧ (analyze_text posClassifier 0 [] [] ("good".toList) false).2.length = 1 := by
  refine ⟨rfl, rfl, rfl⟩

/-- Claim C9 (corrected): for an accepted request, the single-text route
normalizes the text when `preprocess` is true (default), classifies it,
normalizes the result and appends the produced record to the History
Store; the batch route normalizes and classifies each item the same way
but does NOT append its per-item results — it returns the history
unchanged. -/
theorem C9_routing (classify : Classifier) (dt : ℚ) (history : List Record) (now : PyStr)
    (text : PyStr) (texts : List PyStr) (preprocess : Bool)
    (hT : text.length ≤ 5000) (hB : texts.length ≤ 50) :
    analyze_text classify dt history now text preprocess
      = (match analyze classify dt (if preprocess then clean_text text else text) with
         | Except.error e => (SingleResp.analysisError e, history)
         | Except.ok result =>
             (SingleResp.success result, save_analysis history (toRecord result) now))
    ∧ (analyze_batch_route classify dt history texts preprocess).1
        = BatchResp.success
            (analyze_batch classify dt (if preprocess then texts.map clean_text else texts))
            (calculate_batch_stats
              ((analyze_batch classify dt
                  (if preprocess then texts.map clean_text else texts)).map batchItemRecord))
    ∧ (analyze_batch_route classify dt history texts preprocess).2 = history := by
  refine ⟨?_, ?_, ?_⟩
  · unfold analyze_text
    rw [if_neg (by omega)]
  · unfold analyze_batch_route
    rw [if_neg (by omega)]
  · unfold analyze_batch_route
    rw [if_neg (by omega)]

/-- Instantiation of C9 at a one-item request. -/
theorem C9_routing_witness :
    analyze_text posClassifier 0 [] [] ("ok".toList) false
      = (match analyze posClassifier 0 (if false then clean_text ("ok".toList) else "ok".toList) with
         | Except.error e => (SingleResp.analysisError e, ([] : List Record))
         | Except.ok result =>
             (SingleResp.success result, save_analysis [] (toRecord result) []))
    ∧ (analyze_batch_route posClassifier 0 [] ["ok".toList] false).1
        = BatchResp.success
            (analyze_batch posClassifier 0
              (if false then ["ok".toList].map clean_text else ["ok".toList]))
            (calculate_batch_stats
              ((analyze_batch posClassifier 0
                  (if false then ["ok".toList].map clean_text else ["ok".toList])).map
                batchItemRecord))
    ∧ (analyze_batch_route posClassifier 0 [] ["ok".toList] false).2 = [] :=
  C9_routing posClassifier 0 [] [] ("ok".toList) ["ok".toList] false (by decide) (by decide)

end SentApp
